import Mathlib

/-!
Verification of the Device Management agent token-management utilities
(`agent-runtime/utils.py`) and the gateway provisioning script
(`gateway/create_gateway.py`).

The Python code is shallowly embedded: timestamps (`datetime.now()`) are
integers (seconds), the identity provider's possible behaviours during one
fetch attempt are an explicit inductive type, and every outbound HTTP
request a function would issue is collected in a `madeRequests` list so
that "zero outbound requests" is a provable statement.
-/

/-- Parsed JSON body of a 200 token response: `token_data.get("access_token")`
yields an optional string, `token_data.get("expires_in", 3600)` an optional
integer (defaulted at the use site, as in the source). -/
structure TokenBody where
  accessToken : Option String
  expiresIn : Option Int
deriving Repr, DecidableEq

/-- What the identity provider endpoint does for one fetch attempt:
either an HTTP exchange completes with some status code (with `body = none`
standing for a 200 whose JSON parse raises), or the transport raises
(connect error / timeout). -/
inductive ProviderBehavior where
  | ok (status : Nat) (body : Option TokenBody)
  | transportError
deriving Repr, DecidableEq

/-- The mutable fields of `CognitoTokenManager`: `self.token`,
`self.token_expires_at` and the three credentials read at construction. -/
structure TokenManagerState where
  token : Option String
  tokenExpiresAt : Option Int
  cognitoDomain : String
  clientId : String
  clientSecret : String
deriving Repr, DecidableEq

/-- One outbound request to the token endpoint, as built in
`_fetch_new_token` (url, grant type and credentials of the form body). -/
structure HttpRequest where
  url : String
  grantType : String
  clientId : String
  clientSecret : String
deriving Repr, DecidableEq

/-- The request `_fetch_new_token` posts, built from the manager's state. -/
def tokenRequest (st : TokenManagerState) : HttpRequest :=
  { url := "https://" ++ st.cognitoDomain ++ "/oauth2/token"
  , grantType := "client_credentials"
  , clientId := st.clientId
  , clientSecret := st.clientSecret }

/-- Result of `_fetch_new_token`: the returned optional token, the manager
state after the call, and the outbound requests issued. -/
structure FetchResult where
  value : Option String
  state : TokenManagerState
  madeRequests : List HttpRequest
deriving Repr, DecidableEq

/-- `CognitoTokenManager._fetch_new_token` (utils.py lines 91-123).
On status 200 with a parseable body it sets
`self.token_expires_at = now + (expires_in - 300)` (default 3600) and
returns `token_data.get("access_token")`; on any non-200 status, parse
failure or transport exception it returns `None` and leaves the state
untouched. Exactly one request is posted in every branch. -/
def fetchNewToken (st : TokenManagerState) (now : Int) (pb : ProviderBehavior) :
    FetchResult :=
  match pb with
  | .transportError => ⟨none, st, [tokenRequest st]⟩
  | .ok status body =>
      if status = 200 then
        match body with
        | none => ⟨none, st, [tokenRequest st]⟩
        | some b =>
            let expiresIn := b.expiresIn.getD 3600
            ⟨b.accessToken,
             { st with tokenExpiresAt := some (now + (expiresIn - 300)) },
             [tokenRequest st]⟩
      else ⟨none, st, [tokenRequest st]⟩

/-- Python truthiness of `self.token` as used by `if not self.token`:
a cached token exists iff the field is a non-empty string. -/
def hasCachedToken (st : TokenManagerState) : Bool :=
  match st.token with
  | some t => decide (t ≠ "")
  | none => false

/-- `CognitoTokenManager._is_token_expired` (utils.py lines 125-129):
true when no (truthy) token or no expiry is cached, else
`datetime.now() >= self.token_expires_at`. -/
def isTokenExpired (st : TokenManagerState) (now : Int) : Bool :=
  if hasCachedToken st then
    match st.tokenExpiresAt with
    | some e => decide (now ≥ e)
    | none => true
  else true

/-- Result of `get_token`: the returned optional token, the state after the
call, and the outbound requests issued during the call. -/
structure GetTokenResult where
  result : Option String
  state : TokenManagerState
  madeRequests : List HttpRequest
deriving Repr, DecidableEq

/-- `CognitoTokenManager.get_token` (utils.py lines 131-137): if the token
is expired or missing, fetch a new one and store it in `self.token`; then
return `self.token`. -/
def getToken (st : TokenManagerState) (now : Int) (pb : ProviderBehavior) :
    GetTokenResult :=
  if isTokenExpired st now then
    let f := fetchNewToken st now pb
    ⟨f.value, { f.state with token := f.value }, f.madeRequests⟩
  else ⟨st.token, st, []⟩

/-- Python falsiness of an environment value as tested by
`not all([domain, client_id, client_secret])`: absent or empty string. -/
def envFalsy (v : Option String) : Bool :=
  match v with
  | none => true
  | some s => decide (s = "")

/-- Result of constructing `CognitoTokenManager`: either the initial state
or the `ValueError`, plus the outbound requests made during construction. -/
structure InitResult where
  outcome : Except String TokenManagerState
  madeRequests : List HttpRequest

/-- `CognitoTokenManager.__init__` (utils.py lines 81-89): reads the three
credentials, raises `ValueError` when any is missing or empty, starts with
no token and no expiry. The body contains no HTTP call. -/
def initTokenManager (domain clientId clientSecret : Option String) :
    InitResult :=
  if envFalsy domain || envFalsy clientId || envFalsy clientSecret then
    ⟨.error "Missing required Cognito environment variables: COGNITO_DOMAIN, COGNITO_CLIENT_ID, COGNITO_CLIENT_SECRET",
     []⟩
  else
    ⟨.ok { token := none, tokenExpiresAt := none
         , cognitoDomain := domain.getD ""
         , clientId := clientId.getD ""
         , clientSecret := clientSecret.getD "" },
     []⟩

/-- `get_oauth_token` (utils.py lines 142-153): lazily constructs the global
manager inside a try/except that converts any exception (in particular the
construction `ValueError`) into `None`; otherwise delegates to `get_token`.
The pair returned is (token, global manager state after the call). -/
def getOauthToken (mgr : Option TokenManagerState)
    (domain clientId clientSecret : Option String)
    (now : Int) (pb : ProviderBehavior) :
    Option String × Option TokenManagerState :=
  match mgr with
  | some st =>
      let r := getToken st now pb
      (r.result, some r.state)
  | none =>
      match (initTokenManager domain clientId clientSecret).outcome with
      | .error _ => (none, none)
      | .ok st =>
          let r := getToken st now pb
          (r.result, some r.state)

/-- `get_auth_headers` (utils.py lines 155-162): guards with `if token:`
(Python truthiness, so an absent token and an empty-string token both fall
to the else branch), wrapping a truthy token in a single-entry
`Authorization: Bearer` mapping and otherwise returning the empty mapping.
Total: it never raises. -/
def getAuthHeaders (mgr : Option TokenManagerState)
    (domain clientId clientSecret : Option String)
    (now : Int) (pb : ProviderBehavior) :
    List (String × String) × Option TokenManagerState :=
  match getOauthToken mgr domain clientId clientSecret now pb with
  | (some t, m) =>
      if t = "" then ([], m) else ([("Authorization", "Bearer " ++ t)], m)
  | (none, m) => ([], m)

/-- `get_aws_region` (utils.py lines 44-54): `os.getenv("AWS_REGION", "us-west-2")`. -/
def get_aws_region (awsRegionEnv : Option String) : String :=
  awsRegionEnv.getD "us-west-2"

/-- Region passed to `boto3.Session` in `create_agentcore_client`
(utils.py line 169): `os.getenv("AWS_REGION", "us-west-2")`. -/
def createAgentcoreSessionRegion (awsRegionEnv : Option String) : String :=
  awsRegionEnv.getD "us-west-2"

/-- Region passed to the `bedrock-agentcore` client in
`create_agentcore_client` (utils.py line 174): same default. -/
def createAgentcoreClientRegion (awsRegionEnv : Option String) : String :=
  awsRegionEnv.getD "us-west-2"

/-- Region passed to the `bedrock-agentcore-control` client in
`create_gateway.py` lines 51 and 63-66: `AWS_REGION = os.getenv('AWS_REGION')`
with NO default, so the client receives `None` when the variable is unset. -/
def provisioningControlClientRegion (awsRegionEnv : Option String) :
    Option String :=
  awsRegionEnv

/-- Region passed to the starter-toolkit `GatewayClient` in
`create_gateway.py` line 45: the literal `"us-west-2"`, ignoring the
environment. -/
def gatewayStarterClientRegion (_awsRegionEnv : Option String) : String :=
  "us-west-2"

/-- Fields read from the control plane's `create_gateway` response via
`.get('gatewayId')` / `.get('gatewayArn')` — both may be absent. -/
structure CreateGatewayResponse where
  gatewayId : Option String
  gatewayArn : Option String
deriving Repr, DecidableEq

/-- Python truthiness of the `if gateway_id:` / `if gateway_arn:` guards. -/
def pyTruthyStr (v : Option String) : Bool :=
  match v with
  | none => false
  | some s => decide (s ≠ "")

/-- The inner `.env`-update block of `create_gateway.py` (lines 96-110):
conditional `set_key` calls for GATEWAY_ID, GATEWAY_ARN and
GATEWAY_IDENTIFIER, in order, each of which may raise. -/
def updateEnvFile (resp : CreateGatewayResponse)
    (setKey : String → String → Except String Unit) : Except String Unit := do
  if pyTruthyStr resp.gatewayId then
    setKey "GATEWAY_ID" (resp.gatewayId.getD "")
  if pyTruthyStr resp.gatewayArn then
    setKey "GATEWAY_ARN" (resp.gatewayArn.getD "")
  if pyTruthyStr resp.gatewayId then
    setKey "GATEWAY_IDENTIFIER" (resp.gatewayId.getD "")

/-- Exit code of `create_gateway.py` (lines 77-116): the outer try wraps
the `create_gateway` call and everything after; its except handler calls
`sys.exit(1)`. The `.env` update sits in an inner try whose except only
prints a warning, after which the script falls off the end (exit status 0). -/
def createGatewayScriptExitCode
    (createResult : Except String CreateGatewayResponse)
    (setKey : String → String → Except String Unit) : Nat :=
  match createResult with
  | .error _ => 1
  | .ok resp =>
      match updateEnvFile resp setKey with
      | .error _ => 0
      | .ok _ => 0

/-- A sequence of `get_token` calls, each at its own time and against its
own provider behaviour, threading the manager state. -/
def runCalls : TokenManagerState → List (Int × ProviderBehavior) →
    List GetTokenResult
  | _, [] => []
  | st, (now, pb) :: rest =>
      let r := getToken st now pb
      r :: runCalls r.state rest

/-- The `expires_in` value a 200-with-body behaviour would lead the fetch to
use (field value, or the 3600 default); 0 for behaviours that store nothing. -/
def effectiveExpiresIn (pb : ProviderBehavior) : Int :=
  match pb with
  | .ok 200 (some b) => b.expiresIn.getD 3600
  | _ => 0

/-- A fetch attempt the source treats as failed: transport exception,
non-200 status, or 200 with an unparseable body. -/
def fetchFailureBehavior (pb : ProviderBehavior) : Bool :=
  match pb with
  | .transportError => true
  | .ok status body => decide (status ≠ 200) || body.isNone

/-- A freshly constructed manager state, as `__init__` leaves it. -/
def stFresh : TokenManagerState :=
  { token := none, tokenExpiresAt := none
  , cognitoDomain := "example.auth.us-west-2.amazoncognito.com"
  , clientId := "client-id", clientSecret := "client-secret" }

/-- A manager state holding a cached token valid until time 2000. -/
def stCached : TokenManagerState :=
  { token := some "T1", tokenExpiresAt := some 2000
  , cognitoDomain := "example.auth.us-west-2.amazoncognito.com"
  , clientId := "client-id", clientSecret := "client-secret" }

/-- A 200 response carrying token T1 with a small expiry of 200 seconds. -/
def pbSmall : ProviderBehavior :=
  .ok 200 (some { accessToken := some "T1", expiresIn := some 200 })

/-! ## Helper lemmas shared by the claim theorems -/

/-- When the check says expired, `get_token` takes the fetch branch. -/
lemma getToken_fetch_eq (st : TokenManagerState) (now : Int)
    (pb : ProviderBehavior) (h : isTokenExpired st now = true) :
    getToken st now pb =
      ⟨(fetchNewToken st now pb).value,
       { (fetchNewToken st now pb).state with
           token := (fetchNewToken st now pb).value },
       (fetchNewToken st now pb).madeRequests⟩ := by
  simp [getToken, h]

/-- When the check says not expired, `get_token` is a pure cache read. -/
lemma getToken_cacheHit_eq (st : TokenManagerState) (now : Int)
    (pb : ProviderBehavior) (h : isTokenExpired st now = false) :
    getToken st now pb = ⟨st.token, st, []⟩ := by
  simp [getToken, h]

/-- The expiry check passes only with a truthy token and a strictly future
stored expiry. -/
lemma notExpired_char (st : TokenManagerState) (now : Int)
    (h : isTokenExpired st now = false) :
    hasCachedToken st = true ∧ ∃ e, st.tokenExpiresAt = some e ∧ now < e := by
  unfold isTokenExpired at h
  rcases hct : hasCachedToken st with _ | _ <;> rw [hct] at h
  · simp at h
  · rcases hexp : st.tokenExpiresAt with _ | e <;> rw [hexp] at h
    · simp at h
    · simp at h
      exact ⟨rfl, e, rfl, h⟩

/-- A stored expiry at or before `now` makes the check report expired. -/
lemma expired_of_past (st : TokenManagerState) (now e : Int)
    (hexp : st.tokenExpiresAt = some e) (hle : e ≤ now) :
    isTokenExpired st now = true := by
  unfold isTokenExpired
  rcases hct : hasCachedToken st with _ | _
  · simp
  · rw [hexp]
    simpa using hle

/-- A fetch against a 200-with-body behaviour stores
`now + (expires_in - 300)` and returns the body's access token. -/
lemma fetchNewToken_ok (st : TokenManagerState) (now : Int) (b : TokenBody) :
    fetchNewToken st now (.ok 200 (some b)) =
      ⟨b.accessToken,
       { st with tokenExpiresAt := some (now + (b.expiresIn.getD 3600 - 300)) },
       [tokenRequest st]⟩ := by
  simp [fetchNewToken]

/-- A failed fetch returns no token and leaves the state untouched. -/
lemma fetchNewToken_fail (st : TokenManagerState) (now : Int)
    (pb : ProviderBehavior) (hfail : fetchFailureBehavior pb = true) :
    fetchNewToken st now pb = ⟨none, st, [tokenRequest st]⟩ := by
  rcases pb with ⟨status, body⟩ | _
  · unfold fetchFailureBehavior at hfail
    simp only [Bool.or_eq_true, decide_eq_true_eq, Option.isNone_iff_eq_none]
      at hfail
    rcases hfail with hne | hnone
    · simp [fetchNewToken, hne]
    · subst hnone
      simp [fetchNewToken]
  · rfl

/-- Every fetch attempt posts exactly one request to the token endpoint. -/
lemma fetchNewToken_madeRequests (st : TokenManagerState) (now : Int)
    (pb : ProviderBehavior) :
    (fetchNewToken st now pb).madeRequests = [tokenRequest st] := by
  rcases pb with ⟨status, body⟩ | _
  · by_cases hs : status = 200
    · subst hs
      rcases body with _ | b <;> simp [fetchNewToken]
    · simp [fetchNewToken, hs]
  · rfl

/-! ## Claim theorems -/

/-- C1 counterexample: with an empty cache at time 1000, a 200 response with
`expires_in = 200` makes `get_token` return the fetched token "T1" even
though the expiry it just stored, `1000 + (200 - 300) = 900`, is already in
the past at the moment of return — `get_token` does not re-check expiry
after a fetch. -/
theorem c1_counterexample :
    (getToken stFresh 1000 pbSmall).result = some "T1"
    ∧ (getToken stFresh 1000 pbSmall).state.tokenExpiresAt = some 900
    ∧ ¬ ((1000 : Int) < 900) := by
  refine ⟨by decide, by decide, by decide⟩

/-- C1 (amended): a token returned by `get_token` has its stored expiry
strictly later than the current time provided the call was a cache hit (no
outbound request), or the fetch that produced it carried an effective
`expires_in` strictly greater than 300; a freshly fetched token is returned
unconditionally, so with `expires_in ≤ 300` the guarantee fails. -/
theorem c1_amended_validity (st : TokenManagerState) (now : Int)
    (pb : ProviderBehavior) (tok : String)
    (hres : (getToken st now pb).result = some tok)
    (hok : (getToken st now pb).madeRequests = [] ∨ 300 < effectiveExpiresIn pb) :
    ∃ e, (getToken st now pb).state.tokenExpiresAt = some e ∧ now < e := by
  cases hexp : isTokenExpired st now with
  | false =>
      rw [getToken_cacheHit_eq st now pb hexp]
      obtain ⟨-, e, he, hlt⟩ := notExpired_char st now hexp
      exact ⟨e, he, hlt⟩
  | true =>
      rw [getToken_fetch_eq st now pb hexp] at hres hok ⊢
      rcases pb with ⟨status, body⟩ | _
      · by_cases hs : status = 200
        · subst hs
          rcases body with _ | b
          · simp [fetchNewToken] at hres
          · rw [fetchNewToken_ok] at hres hok ⊢
            refine ⟨now + (b.expiresIn.getD 3600 - 300), rfl, ?_⟩
            rcases hok with hnil | hbig
            · simp [fetchNewToken_madeRequests] at hnil
            · simp only [effectiveExpiresIn] at hbig
              omega
        · simp [fetchNewToken, hs] at hres
      · simp [fetchNewToken] at hres

/-- Closed instance of C1 (amended): a cache hit at time 1000 on a token
valid until 2000 returns a token whose stored expiry is strictly future. -/
theorem c1_amended_witness :
    ∃ e, (getToken stCached 1000 ProviderBehavior.transportError).state.tokenExpiresAt
        = some e ∧ (1000 : Int) < e :=
  c1_amended_validity stCached 1000 .transportError "T1" (by decide)
    (Or.inl (by decide))

/-- C2: a fetch against a 200 response stores exactly
`now + (expires_in - 300)` (with `expires_in` defaulting to 3600 when the
field is absent) and returns the body's access token; for
`expires_in = 3600` and a non-empty token the expiry check reports the
token valid at `now + 3299` and expired at `now + 3300`. -/
theorem c2_expiry_formula (st : TokenManagerState) (now : Int) (b : TokenBody)
    (hexp : isTokenExpired st now = true) :
    (getToken st now (.ok 200 (some b))).state.tokenExpiresAt
      = some (now + (b.expiresIn.getD 3600 - 300))
    ∧ (getToken st now (.ok 200 (some b))).result = b.accessToken
    ∧ (∀ tokStr, b.expiresIn = some 3600 → b.accessToken = some tokStr →
        tokStr ≠ "" →
        isTokenExpired (getToken st now (.ok 200 (some b))).state (now + 3299)
            = false
        ∧ isTokenExpired (getToken st now (.ok 200 (some b))).state (now + 3300)
            = true) := by
  rw [getToken_fetch_eq _ _ _ hexp, fetchNewToken_ok]
  refine ⟨rfl, rfl, ?_⟩
  intro tokStr h36 hacc hne
  rw [h36, hacc]
  constructor
  · simp [isTokenExpired, hasCachedToken, hne]
  · simp [isTokenExpired, hasCachedToken, hne]

/-- Closed instance of C2 at `t0 = 0`, `expires_in = 3600`, token "T1". -/
theorem c2_witness :
    (getToken stFresh 0 (ProviderBehavior.ok 200
        (some ⟨some "T1", some 3600⟩))).state.tokenExpiresAt
      = some (0 + ((some (3600 : Int)).getD 3600 - 300))
    ∧ isTokenExpired (getToken stFresh 0 (ProviderBehavior.ok 200
        (some ⟨some "T1", some 3600⟩))).state (0 + 3299) = false
    ∧ isTokenExpired (getToken stFresh 0 (ProviderBehavior.ok 200
        (some ⟨some "T1", some 3600⟩))).state (0 + 3300) = true := by
  have h := c2_expiry_formula stFresh 0 ⟨some "T1", some 3600⟩ rfl
  exact ⟨h.1, (h.2.2 "T1" rfl rfl (by decide)).1, (h.2.2 "T1" rfl rfl (by decide)).2⟩

/-- C3: when the fetch path is taken and the provider answers with a
non-200 status, an unparseable 200 body, or a transport exception,
`get_token` returns `None` (totally — the embedding never raises), the
cached token field becomes `None`, and every other field of the manager
state (stored expiry and the three credentials) is unchanged. -/
theorem c3_failure_absence (st : TokenManagerState) (now : Int)
    (pb : ProviderBehavior) (hfail : fetchFailureBehavior pb = true)
    (hexp : isTokenExpired st now = true) :
    (getToken st now pb).result = none
    ∧ (getToken st now pb).state.token = none
    ∧ (getToken st now pb).state.tokenExpiresAt = st.tokenExpiresAt
    ∧ (getToken st now pb).state.cognitoDomain = st.cognitoDomain
    ∧ (getToken st now pb).state.clientId = st.clientId
    ∧ (getToken st now pb).state.clientSecret = st.clientSecret := by
  rw [getToken_fetch_eq _ _ _ hexp, fetchNewToken_fail _ _ _ hfail]
  exact ⟨rfl, rfl, rfl, rfl, rfl, rfl⟩

/-- An HTTP 401 answer against an empty cache. -/
def pb401 : ProviderBehavior := .ok 401 (some ⟨some "X", some 3600⟩)

/-- Closed instance of C3: a 401 from the provider yields no token and
leaves the fresh state's other fields as they were. -/
theorem c3_witness :
    (getToken stFresh 1000 pb401).result = none
    ∧ (getToken stFresh 1000 pb401).state.token = none
    ∧ (getToken stFresh 1000 pb401).state.tokenExpiresAt = stFresh.tokenExpiresAt
    ∧ (getToken stFresh 1000 pb401).state.cognitoDomain = stFresh.cognitoDomain
    ∧ (getToken stFresh 1000 pb401).state.clientId = stFresh.clientId
    ∧ (getToken stFresh 1000 pb401).state.clientSecret = stFresh.clientSecret :=
  c3_failure_absence stFresh 1000 pb401 (by decide) rfl

/-- C4: construction fails with the `ValueError` exactly when one of the
three credentials is absent or empty, and construction performs no outbound
request whether it succeeds or fails. -/
theorem c4_construction (domain clientId clientSecret : Option String) :
    ((envFalsy domain || envFalsy clientId || envFalsy clientSecret) = true ↔
      ∃ msg, (initTokenManager domain clientId clientSecret).outcome
          = .error msg)
    ∧ (initTokenManager domain clientId clientSecret).madeRequests = [] := by
  cases h : (envFalsy domain || envFalsy clientId || envFalsy clientSecret) with
  | false => exact ⟨by simp [initTokenManager, h], by simp [initTokenManager, h]⟩
  | true => exact ⟨by simp [initTokenManager, h], by simp [initTokenManager, h]⟩

/-- Closed instance of C4: a missing domain makes construction fail, with
no outbound request. -/
theorem c4_witness :
    (∃ msg, (initTokenManager none (some "cid") (some "csec")).outcome
        = Except.error msg)
    ∧ (initTokenManager none (some "cid") (some "csec")).madeRequests = [] :=
  ⟨(c4_construction none (some "cid") (some "csec")).1.mp (by decide),
   (c4_construction none (some "cid") (some "csec")).2⟩

/-- C5: with a (truthy) cached token and a stored expiry strictly after
`now`, `get_token` makes zero outbound requests, leaves the whole state
unchanged and returns the cached token value. -/
theorem c5_cache_hit (st : TokenManagerState) (now e : Int)
    (pb : ProviderBehavior) (htok : hasCachedToken st = true)
    (hexp : st.tokenExpiresAt = some e) (hlt : now < e) :
    getToken st now pb = ⟨st.token, st, []⟩ := by
  apply getToken_cacheHit_eq
  simp [isTokenExpired, htok, hexp]
  omega

/-- Closed instance of C5: at time 1000 against a token valid until 2000,
`get_token` is a pure cache read even if the provider would have failed. -/
theorem c5_witness :
    getToken stCached 1000 ProviderBehavior.transportError
      = ⟨stCached.token, stCached, []⟩ :=
  c5_cache_hit stCached 1000 2000 .transportError (by decide) rfl (by decide)

/-- C6: after a fetch whose body carried `expires_in < 300` at time `t`,
(1) the stored expiry lies strictly before `t`; (2) any later `get_token`
call (at any time `now' ≥ t`, against any provider behaviour) issues a
fetch and returns the fresh fetch's value rather than the cache; and
(3) in general a call that makes no request can only return the cached
token under a strictly future stored expiry — together: across any sequence
of calls with a monotone clock, a token obtained with `expires_in < 300` is
never served from the cache again. -/
theorem c6_small_expiry (st : TokenManagerState) (t eIn : Int) (b : TokenBody)
    (hin : b.expiresIn = some eIn) (hsmall : eIn < 300)
    (hexp : isTokenExpired st t = true) :
    (∃ e, (getToken st t (.ok 200 (some b))).state.tokenExpiresAt = some e
        ∧ e < t)
    ∧ (∀ now' pb', t ≤ now' →
        (getToken (getToken st t (.ok 200 (some b))).state now' pb').madeRequests
            ≠ []
        ∧ (getToken (getToken st t (.ok 200 (some b))).state now' pb').result
            = (fetchNewToken (getToken st t (.ok 200 (some b))).state now' pb').value)
    ∧ (∀ (st' : TokenManagerState) (now' : Int) (pb' : ProviderBehavior),
        (getToken st' now' pb').madeRequests = [] →
        (getToken st' now' pb').result = st'.token
        ∧ ∃ e, st'.tokenExpiresAt = some e ∧ now' < e) := by
  have hstate : (getToken st t (.ok 200 (some b))).state.tokenExpiresAt
      = some (t + (eIn - 300)) := by
    rw [getToken_fetch_eq _ _ _ hexp, fetchNewToken_ok, hin]
    rfl
  refine ⟨⟨t + (eIn - 300), hstate, by omega⟩, ?_, ?_⟩
  · intro now' pb' hle
    have hexp' : isTokenExpired (getToken st t (.ok 200 (some b))).state now'
        = true := expired_of_past _ _ _ hstate (by omega)
    rw [getToken_fetch_eq _ _ _ hexp']
    refine ⟨?_, rfl⟩
    simp [fetchNewToken_madeRequests]
  · intro st' now' pb' hreq
    cases hx : isTokenExpired st' now' with
    | false =>
        rw [getToken_cacheHit_eq _ _ _ hx]
        obtain ⟨-, e, he, hlt⟩ := notExpired_char st' now' hx
        exact ⟨rfl, e, he, hlt⟩
    | true =>
        rw [getToken_fetch_eq _ _ _ hx] at hreq
        simp [fetchNewToken_madeRequests] at hreq

/-- Closed instance of C6: the `expires_in = 200` fetch at time 1000 stores
a past expiry, and the very next call (same clock) must go to the network. -/
theorem c6_witness :
    (∃ e, (getToken stFresh 1000 pbSmall).state.tokenExpiresAt = some e
        ∧ e < 1000)
    ∧ (getToken (getToken stFresh 1000 pbSmall).state 1000
        ProviderBehavior.transportError).madeRequests ≠ [] := by
  have h := c6_small_expiry stFresh 1000 200 ⟨some "T1", some 200⟩ rfl
    (by decide) rfl
  exact ⟨h.1, (h.2.1 1000 ProviderBehavior.transportError (by decide)).1⟩

/-- C7: `get_auth_headers` is total (never raises) and returns exactly the
singleton `Authorization: Bearer` mapping when `get_oauth_token` yields a
truthy (non-empty) token, and exactly the empty mapping otherwise — both
when no token came back and when the token is the falsy empty string; and
when the global manager is unset and construction would fail for missing
credentials, `get_oauth_token` collapses to `None` with no manager
created. -/
theorem c7_headers_total (mgr : Option TokenManagerState)
    (domain clientId clientSecret : Option String)
    (now : Int) (pb : ProviderBehavior) :
    ((∃ t, (getOauthToken mgr domain clientId clientSecret now pb).1 = some t
        ∧ t ≠ ""
        ∧ (getAuthHeaders mgr domain clientId clientSecret now pb).1
            = [("Authorization", "Bearer " ++ t)])
      ∨ (((getOauthToken mgr domain clientId clientSecret now pb).1 = none
          ∨ (getOauthToken mgr domain clientId clientSecret now pb).1 = some "")
        ∧ (getAuthHeaders mgr domain clientId clientSecret now pb).1 = []))
    ∧ (mgr = none →
        (envFalsy domain || envFalsy clientId || envFalsy clientSecret) = true →
        getOauthToken mgr domain clientId clientSecret now pb = (none, none)) := by
  constructor
  · rcases hres : getOauthToken mgr domain clientId clientSecret now pb
      with ⟨tok, m⟩
    rcases tok with _ | t
    · right
      refine ⟨Or.inl rfl, ?_⟩
      unfold getAuthHeaders
      rw [hres]
    · by_cases ht : t = ""
      · subst ht
        right
        refine ⟨Or.inr rfl, ?_⟩
        unfold getAuthHeaders
        rw [hres]
        rfl
      · left
        refine ⟨t, rfl, ht, ?_⟩
        unfold getAuthHeaders
        rw [hres]
        simp [ht]
  · intro hm hf
    subst hm
    simp [getOauthToken, initTokenManager, hf]

/-- Closed instance of C7: with a valid cached token the headers are the
Bearer singleton; with no manager and missing credentials the token path
collapses to `None`. -/
theorem c7_witness :
    ((∃ t, (getOauthToken (some stCached) none none none 1000
          ProviderBehavior.transportError).1 = some t
        ∧ t ≠ ""
        ∧ (getAuthHeaders (some stCached) none none none 1000
            ProviderBehavior.transportError).1
            = [("Authorization", "Bearer " ++ t)])
      ∨ (((getOauthToken (some stCached) none none none 1000
          ProviderBehavior.transportError).1 = none
          ∨ (getOauthToken (some stCached) none none none 1000
            ProviderBehavior.transportError).1 = some "")
        ∧ (getAuthHeaders (some stCached) none none none 1000
            ProviderBehavior.transportError).1 = []))
    ∧ ((some stCached = none) →
        (envFalsy none || envFalsy none || envFalsy none) = true →
        getOauthToken (some stCached) none none none 1000
            ProviderBehavior.transportError = (none, none)) :=
  c7_headers_total (some stCached) none none none 1000 .transportError

/-- C8: a 200 response whose body lacks `access_token` still overwrites the
stored expiry with `now + (expires_in - 300)` (default 3600) while
`get_token` returns `None` and caches `None` — the missing field is
failure-by-absence, not an error, yet the expiry field is mutated. -/
theorem c8_missing_access_token (st : TokenManagerState) (now : Int)
    (expIn : Option Int) (hexp : isTokenExpired st now = true) :
    (getToken st now (.ok 200 (some ⟨none, expIn⟩))).result = none
    ∧ (getToken st now (.ok 200 (some ⟨none, expIn⟩))).state.token = none
    ∧ (getToken st now (.ok 200 (some ⟨none, expIn⟩))).state.tokenExpiresAt
        = some (now + (expIn.getD 3600 - 300)) := by
  rw [getToken_fetch_eq _ _ _ hexp, fetchNewToken_ok]
  exact ⟨rfl, rfl, rfl⟩

/-- Closed instance of C8: 200 with an empty body at time 1000 yields no
token but stores the fresh expiry 1000 + (3600 - 300). -/
theorem c8_witness :
    (getToken stFresh 1000 (ProviderBehavior.ok 200 (some ⟨none, none⟩))).result
        = none
    ∧ (getToken stFresh 1000
        (ProviderBehavior.ok 200 (some ⟨none, none⟩))).state.token = none
    ∧ (getToken stFresh 1000
        (ProviderBehavior.ok 200 (some ⟨none, none⟩))).state.tokenExpiresAt
        = some (1000 + ((none : Option Int).getD 3600 - 300)) :=
  c8_missing_access_token stFresh 1000 none rfl

/-- C9 counterexample: with `AWS_REGION` unset the provisioning script's
control-plane client receives region `None` — not "us-west-2" — because
`create_gateway.py` reads the variable without a default. -/
theorem c9_counterexample :
    provisioningControlClientRegion none = none
    ∧ provisioningControlClientRegion none ≠ some "us-west-2" :=
  ⟨rfl, by decide⟩

/-- C9 (amended): `get_aws_region` and both regions chosen by
`create_agentcore_client` use `AWS_REGION` with default "us-west-2";
the provisioning script's control-plane client passes `AWS_REGION` through
with no default (so `None` when unset), and its starter-toolkit
`GatewayClient` is hardcoded to "us-west-2" regardless of the
environment. -/
theorem c9_amended_regions (awsRegionEnv : Option String) :
    (awsRegionEnv = none →
        get_aws_region awsRegionEnv = "us-west-2"
        ∧ createAgentcoreSessionRegion awsRegionEnv = "us-west-2"
        ∧ createAgentcoreClientRegion awsRegionEnv = "us-west-2"
        ∧ provisioningControlClientRegion awsRegionEnv = none)
    ∧ (∀ r, awsRegionEnv = some r →
        get_aws_region awsRegionEnv = r
        ∧ createAgentcoreSessionRegion awsRegionEnv = r
        ∧ createAgentcoreClientRegion awsRegionEnv = r
        ∧ provisioningControlClientRegion awsRegionEnv = some r)
    ∧ gatewayStarterClientRegion awsRegionEnv = "us-west-2" := by
  refine ⟨?_, ?_, rfl⟩
  · rintro rfl
    exact ⟨rfl, rfl, rfl, rfl⟩
  · rintro r rfl
    exact ⟨rfl, rfl, rfl, rfl⟩

/-- Closed instance of C9 (amended) with `AWS_REGION` unset. -/
theorem c9_amended_witness :
    get_aws_region none = "us-west-2"
    ∧ provisioningControlClientRegion none = none
    ∧ gatewayStarterClientRegion none = "us-west-2" :=
  ⟨((c9_amended_regions none).1 rfl).1,
   ((c9_amended_regions none).1 rfl).2.2.2,
   (c9_amended_regions none).2.2⟩

/-- C10: the provisioning script exits with status 1 exactly when the
gateway-creation call raises, and with status 0 on creation success — for
every possible behaviour of the `.env`-writing `set_key` calls, since the
inner try/except swallows their failures. -/
theorem c10_exit_codes (createResult : Except String CreateGatewayResponse)
    (setKey : String → String → Except String Unit) :
    (∀ msg, createResult = .error msg →
        createGatewayScriptExitCode createResult setKey = 1)
    ∧ (∀ resp, createResult = .ok resp →
        createGatewayScriptExitCode createResult setKey = 0) := by
  constructor
  · rintro msg rfl
    rfl
  · rintro resp rfl
    unfold createGatewayScriptExitCode
    cases h : updateEnvFile resp setKey <;> simp [h]

/-- A `set_key` that always raises, modelling an unwritable `.env` file. -/
def failingSetKey : String → String → Except String Unit :=
  fun _ _ => .error "disk full"

/-- Closed instance of C10: even with every `.env` write failing, a
successful creation exits 0; a failing creation exits 1. -/
theorem c10_witness :
    createGatewayScriptExitCode
        (Except.ok ⟨some "gw-123", some "arn:aws:gw-123"⟩) failingSetKey = 0
    ∧ createGatewayScriptExitCode (Except.error "boom") failingSetKey = 1 :=
  ⟨(c10_exit_codes (Except.ok ⟨some "gw-123", some "arn:aws:gw-123"⟩)
      failingSetKey).2 _ rfl,
   (c10_exit_codes (Except.error "boom") failingSetKey).1 _ rfl⟩
